import Mathlib

set_option maxHeartbeats 1000000
set_option autoImplicit false

/-!
Verification of the OASIS send/receive integration-test harness
(`tests/test_oasis_send_recv_integration.py`) and of the MD5 directory
comparison script (`tests/compare_md5.py`) from the oasis-utils repository,
as shallow embeddings in Lean.

Part 1 models `compare_md5.py`: file reads (with the error classes the
script catches), the `calculate_md5` helper and the classification loop of
`compare_directories`.

Part 2 models the orchestration logic of
`test_oasis_send_recv_integration.py`: the tool resolver `check_command`,
the PTY readiness polling loop, the send/receive/compare pipeline of
`main_logic`, and the `cleanup` teardown together with the interruption
handling of the `__main__` block.
-/

/-! ## Part 1: compare_md5.py -/

/-- Result of one attempt to read a file, as seen by
`compare_md5.calculate_md5`: either the full byte content, or one of the
error classes the Python code catches (`FileNotFoundError`, `IOError`,
any other exception). -/
inductive FileRead where
  | ok (content : List Nat)
  | fileNotFound
  | ioError
  | otherError
deriving DecidableEq

/-- Embedding of `compare_md5.calculate_md5` (lines 12-42). The external
hash (`hashlib.md5` updated chunk by chunk, then `hexdigest`) is abstracted
as the parameter `md5hex` applied to the whole byte content: folding
`update` over the chunks of a file digests exactly the concatenated
content, so the chunk size is not observable in the result. Every error
branch of the Python code (`FileNotFoundError`, `IOError`, and the final
catch-all `Exception` handler) prints a message and returns `None`; the
embedding is therefore a total function into `Option String` and never
propagates an exception. -/
def calculate_md5 (md5hex : List Nat → String) (fs : String → FileRead)
    (filepath : String) : Option String :=
  match fs filepath with
  | FileRead.ok content => some (md5hex content)
  | FileRead.fileNotFound => none
  | FileRead.ioError => none
  | FileRead.otherError => none

/-- The common-file classification loop of `compare_directories`
(lines 93-116): each common filename is appended to exactly one of
`matched_files`, `mismatched_files`, `error_files`, depending on the two
MD5 results. The Python loop walks the filenames in sorted order and
appends; this recursion walks them in list order and prepends, which
leaves the membership and the lengths of the three lists unchanged.
Result components: `.1` = matched, `.2.1` = mismatched, `.2.2` = errors. -/
def classifyCommon (md5a md5b : String → Option String) :
    List String → List String × List String × List String
  | [] => ([], [], [])
  | filename :: rest =>
    let r := classifyCommon md5a md5b rest
    match md5a filename, md5b filename with
    | some h1, some h2 =>
      if h1 = h2 then (filename :: r.1, r.2.1, r.2.2)
      else (r.1, filename :: r.2.1, r.2.2)
    | _, _ => (r.1, r.2.1, filename :: r.2.2)

/-- Observable outcome of `compare_directories` (lines 44-150): the file
partitions it reports. -/
structure CompareOutcome where
  common_files : List String
  files_only_in_dir1 : List String
  files_only_in_dir2 : List String
  matched_files : List String
  mismatched_files : List String
  error_files : List String
deriving DecidableEq

/-- Embedding of `compare_directories` (lines 44-150) after the two
directories have been validated. `files1` and `files2` are the regular
file names listed in each directory (`os.listdir` filtered by
`os.path.isfile`); the Python sets and set operations are modelled by
lists and membership filters. `fs1` and `fs2` model reading a file of the
given name inside `dir1` respectively `dir2`. -/
def compare_directories (md5hex : List Nat → String)
    (fs1 fs2 : String → FileRead) (files1 files2 : List String) :
    CompareOutcome :=
  let common_files := files1.filter (fun f => decide (f ∈ files2))
  let c := classifyCommon (calculate_md5 md5hex fs1) (calculate_md5 md5hex fs2)
    common_files
  { common_files := common_files
    files_only_in_dir1 := files1.filter (fun f => !(decide (f ∈ files2)))
    files_only_in_dir2 := files2.filter (fun f => !(decide (f ∈ files1)))
    matched_files := c.1
    mismatched_files := c.2.1
    error_files := c.2.2 }

theorem classifyCommon_length (md5a md5b : String → Option String) :
    ∀ l : List String,
      (classifyCommon md5a md5b l).1.length +
        (classifyCommon md5a md5b l).2.1.length +
        (classifyCommon md5a md5b l).2.2.length = l.length
  | [] => rfl
  | f :: rest => by
    have ih := classifyCommon_length md5a md5b rest
    unfold classifyCommon
    rcases h1 : md5a f with _ | x
    · simp only [h1, List.length_cons]
      omega
    · rcases h2 : md5b f with _ | y
      · simp only [h1, h2, List.length_cons]
        omega
      · by_cases hxy : x = y
        · simp only [h1, h2, if_pos hxy, List.length_cons]
          omega
        · simp only [h1, h2, if_neg hxy, List.length_cons]
          omega

theorem classifyCommon_compared_some (md5a md5b : String → Option String) :
    ∀ (l : List String) (f : String),
      (f ∈ (classifyCommon md5a md5b l).1 ∨
        f ∈ (classifyCommon md5a md5b l).2.1) →
      md5a f ≠ none ∧ md5b f ≠ none
  | [], f => by simp [classifyCommon]
  | g :: rest, f => by
    have ih := classifyCommon_compared_some md5a md5b rest f
    unfold classifyCommon
    rcases h1 : md5a g with _ | x
    · simpa only [h1] using ih
    · rcases h2 : md5b g with _ | y
      · simpa only [h1, h2] using ih
      · by_cases hxy : x = y
        · simp only [h1, h2, if_pos hxy, List.mem_cons]
          rintro ((rfl | hm) | hm)
          · exact ⟨by simp [h1], by simp [h2]⟩
          · exact ih (Or.inl hm)
          · exact ih (Or.inr hm)
        · simp only [h1, h2, if_neg hxy, List.mem_cons]
          rintro (hm | (rfl | hm))
          · exact ih (Or.inl hm)
          · exact ⟨by simp [h1], by simp [h2]⟩
          · exact ih (Or.inr hm)

theorem classifyCommon_error_mem (md5a md5b : String → Option String)
    (f : String) (hf : md5a f = none ∨ md5b f = none) :
    ∀ l : List String, f ∈ l → f ∈ (classifyCommon md5a md5b l).2.2
  | [], h => by simp at h
  | g :: rest, h => by
    have ih := classifyCommon_error_mem md5a md5b f hf rest
    unfold classifyCommon
    rcases List.mem_cons.mp h with rfl | hrest
    · rcases h1 : md5a f with _ | x
      · simp [h1]
      · rcases h2 : md5b f with _ | y
        · simp [h1, h2]
        · rcases hf with hf | hf
          · rw [h1] at hf
            exact absurd hf (by simp)
          · rw [h2] at hf
            exact absurd hf (by simp)
    · have hm := ih hrest
      rcases h1 : md5a g with _ | x
      · simpa [h1] using Or.inr hm
      · rcases h2 : md5b g with _ | y
        · simpa [h1, h2] using Or.inr hm
        · by_cases hxy : x = y
          · simpa [h1, h2, if_pos hxy] using hm
          · simpa [h1, h2, if_neg hxy] using hm

/-- Claim C9: for every pair of input directories, the number of matched
files plus mismatched files plus error files is at most the number of
common files (in fact the classification loop puts each common file in
exactly one bucket), and the source-only and destination-only file lists
are each disjoint from the common-file list. -/
theorem c9_comparison_counts_invariant (md5hex : List Nat → String)
    (fs1 fs2 : String → FileRead) (files1 files2 : List String) :
    (compare_directories md5hex fs1 fs2 files1 files2).matched_files.length +
      (compare_directories md5hex fs1 fs2 files1 files2).mismatched_files.length +
      (compare_directories md5hex fs1 fs2 files1 files2).error_files.length ≤
      (compare_directories md5hex fs1 fs2 files1 files2).common_files.length ∧
    (∀ f, f ∈ (compare_directories md5hex fs1 fs2 files1 files2).files_only_in_dir1 →
      f ∉ (compare_directories md5hex fs1 fs2 files1 files2).common_files) ∧
    (∀ f, f ∈ (compare_directories md5hex fs1 fs2 files1 files2).files_only_in_dir2 →
      f ∉ (compare_directories md5hex fs1 fs2 files1 files2).common_files) := by
  refine ⟨?_, ?_, ?_⟩
  · simp only [compare_directories]
    exact le_of_eq (classifyCommon_length _ _ _)
  · intro f hf
    simp only [compare_directories, List.mem_filter, Bool.not_eq_eq_eq_not,
      Bool.not_true, decide_eq_false_iff_not, decide_eq_true_eq] at hf ⊢
    exact fun hc => hf.2 hc.2
  · intro f hf
    simp only [compare_directories, List.mem_filter, Bool.not_eq_eq_eq_not,
      Bool.not_true, decide_eq_false_iff_not, decide_eq_true_eq] at hf ⊢
    exact fun hc => hf.2 hc.1

/-- A concrete hash function standing in for hashlib md5 hexdigest in
witness instances. -/
def md5hexW : List Nat → String := fun content => toString content.length

/-- A filesystem in which every read succeeds, for witness instances. -/
def fsOkW : String → FileRead := fun _ => FileRead.ok [1, 2, 3]

theorem c9_witness :
    ((compare_directories md5hexW fsOkW fsOkW ["A", "B"] ["B", "C"]).matched_files.length +
      (compare_directories md5hexW fsOkW fsOkW ["A", "B"] ["B", "C"]).mismatched_files.length +
      (compare_directories md5hexW fsOkW fsOkW ["A", "B"] ["B", "C"]).error_files.length ≤
      (compare_directories md5hexW fsOkW fsOkW ["A", "B"] ["B", "C"]).common_files.length) ∧
    "A" ∉ (compare_directories md5hexW fsOkW fsOkW ["A", "B"] ["B", "C"]).common_files ∧
    "C" ∉ (compare_directories md5hexW fsOkW fsOkW ["A", "B"] ["B", "C"]).common_files :=
  ⟨(c9_comparison_counts_invariant md5hexW fsOkW fsOkW ["A", "B"] ["B", "C"]).1,
   (c9_comparison_counts_invariant md5hexW fsOkW fsOkW ["A", "B"] ["B", "C"]).2.1 "A"
     (by decide),
   (c9_comparison_counts_invariant md5hexW fsOkW fsOkW ["A", "B"] ["B", "C"]).2.2 "C"
     (by decide)⟩

/-- Claim C10: `calculate_md5` never raises (it is a total function whose
error branches all yield `none`), and a common file for which either side
yields `none` is counted only as an error file, never as matched or
mismatched. The last conjunct exhibits the never-raises behaviour: every
caught error class maps to `none`. -/
theorem c10_md5_none_counts_error (md5hex : List Nat → String)
    (fs1 fs2 : String → FileRead) (files1 files2 : List String) (f : String)
    (hmem : f ∈ (compare_directories md5hex fs1 fs2 files1 files2).common_files)
    (hnone : calculate_md5 md5hex fs1 f = none ∨ calculate_md5 md5hex fs2 f = none) :
    f ∈ (compare_directories md5hex fs1 fs2 files1 files2).error_files ∧
    f ∉ (compare_directories md5hex fs1 fs2 files1 files2).matched_files ∧
    f ∉ (compare_directories md5hex fs1 fs2 files1 files2).mismatched_files ∧
    (∀ p, (fs1 p = FileRead.fileNotFound ∨ fs1 p = FileRead.ioError ∨
        fs1 p = FileRead.otherError) →
      calculate_md5 md5hex fs1 p = none) := by
  refine ⟨?_, ?_, ?_, ?_⟩
  · simp only [compare_directories] at hmem ⊢
    exact classifyCommon_error_mem _ _ f hnone _ hmem
  · intro hmat
    simp only [compare_directories] at hmat
    have := classifyCommon_compared_some
      (calculate_md5 md5hex fs1) (calculate_md5 md5hex fs2) _ f (Or.inl hmat)
    rcases hnone with hn | hn
    · exact this.1 hn
    · exact this.2 hn
  · intro hmis
    simp only [compare_directories] at hmis
    have := classifyCommon_compared_some
      (calculate_md5 md5hex fs1) (calculate_md5 md5hex fs2) _ f (Or.inr hmis)
    rcases hnone with hn | hn
    · exact this.1 hn
    · exact this.2 hn
  · intro p hp
    rcases hp with hp | hp | hp <;> simp [calculate_md5, hp]

/-- A filesystem whose read of the file named "B" fails, for the C10
witness. -/
def fsErrW : String → FileRead :=
  fun p => if p = "B" then FileRead.fileNotFound else FileRead.ok [1, 2, 3]

theorem c10_witness :
    "B" ∈ (compare_directories md5hexW fsErrW fsOkW ["A", "B"] ["B"]).error_files ∧
    "B" ∉ (compare_directories md5hexW fsErrW fsOkW ["A", "B"] ["B"]).matched_files ∧
    "B" ∉ (compare_directories md5hexW fsErrW fsOkW ["A", "B"] ["B"]).mismatched_files ∧
    calculate_md5 md5hexW fsErrW "B" = none := by
  have h := c10_md5_none_counts_error md5hexW fsErrW fsOkW ["A", "B"] ["B"] "B"
    (by decide) (Or.inl (by decide))
  exact ⟨h.1, h.2.1, h.2.2.1, h.2.2.2 "B" (Or.inl (by decide))⟩

/-! ## Part 2: test_oasis_send_recv_integration.py -/

/-- The command-line arguments of the integration test (the five positional
paths and the two optional COM port flags, lines 314-324). -/
structure TestArgs where
  oasis_disk_util_exec : String
  oasis_send_exec : String
  oasis_recv_exec : String
  disk_image : String
  compare_md5_exec : String
  com_port_recv_arg : Option String
  com_port_send_arg : Option String

/-- The external world the harness interacts with: platform, executable
lookup, filesystem checks, the behaviour of the spawned collaborator
processes, and the content of the comparison report. Each field models
one observation the Python code makes of its environment. -/
structure TestEnv where
  /-- `sys.platform == "win32"` (line 117). -/
  is_win32 : Bool
  /-- `shutil.which` (line 70). -/
  which : String → Option String
  /-- `p.is_file() and os.access(p, os.X_OK)` (lines 74 and 81). -/
  executableFile : String → Bool
  /-- `disk_image_path.is_file()` (line 141). -/
  diskImageIsFile : Bool
  /-- whether `subprocess.Popen` of socat succeeds (lines 170-176). -/
  socatSpawnOk : Bool
  /-- at poll attempt `i`, whether the PTY A symlink exists and resolves to
  a character device (lines 184-190). -/
  readyA : Nat → Bool
  /-- same for the PTY B symlink (lines 192-198). -/
  readyB : Nat → Bool
  /-- the device path PTY A resolves to (line 215). -/
  resolvedA : String
  /-- the device path PTY B resolves to (line 216). -/
  resolvedB : String
  /-- whether `oasis_disk_util ... extract` exits zero (lines 224-228). -/
  extractOk : Bool
  /-- number of regular files in the extraction directory after a
  successful extraction (line 230). -/
  numExtracted : Nat
  /-- exit status of the sender `subprocess.run` (line 260). -/
  sendExit : Nat
  /-- exit status the receiver reports when waited on (lines 269-270). -/
  recvExit : Nat
  /-- whether `shutil.which` finds a python interpreter (line 290). -/
  pythonFound : Bool
  /-- exit status of the comparison tool (line 299). -/
  compareExit : Nat
  /-- number of mismatched files in the captured comparison report. The
  harness captures the report text (line 299) but never parses it. -/
  compareMismatched : Nat
  /-- number of source-only files in the captured comparison report. -/
  compareOnly1 : Nat
  /-- number of destination-only files in the captured comparison report. -/
  compareOnly2 : Nat

/-- Observable outcome of one `main_logic` run: the process exit code and
a trace of what was provisioned, started and observed on the way. -/
structure RunResult where
  /-- argument of the `sys.exit` call ending the run (0 when `main_logic`
  returns without calling `sys.exit`, as the script then falls off the end
  of the `__main__` block). -/
  exit : Nat
  /-- a resolver failure was caught by the `except SystemExit: return` at
  lines 137-138. -/
  resolverFailed : Bool
  /-- the temporary directories were created (lines 153-157). -/
  dirsCreated : Bool
  /-- socat was spawned (line 172). -/
  socatStarted : Bool
  /-- number of readiness-poll iterations executed (lines 183-213). -/
  pollAttempts : Nat
  /-- on a readiness timeout, the last-observed per-endpoint resolved
  state printed by the poll loop (lines 202-206), otherwise `none`. -/
  pollDiag : Option (Bool × Bool)
  /-- final value of the `port_for_recv` global. -/
  portRecv : Option String
  /-- final value of the `port_for_send` global. -/
  portSend : Option String
  /-- `some n` when extraction succeeded and counted `n` files, `none`
  when extraction failed or was never reached. -/
  extracted : Option Nat
  /-- the receiver process was spawned (line 247). -/
  recvStarted : Bool
  /-- the sender process was run (line 260). -/
  sendStarted : Bool
  /-- `some c` when the sender ran and exited with status `c`. -/
  sendResult : Option Nat
  /-- whether the receiver process is still running when `main_logic`
  ends. -/
  recvRunningAtEnd : Bool
  /-- `some c` when the comparison tool was run and exited with status
  `c` (captured by `subprocess.run(..., check=True)`, line 299). -/
  compareRan : Option Nat
deriving DecidableEq

/-- The all-clear starting trace: nothing provisioned, nothing started. -/
def initialResult : RunResult :=
  { exit := 0
    resolverFailed := false
    dirsCreated := false
    socatStarted := false
    pollAttempts := 0
    pollDiag := none
    portRecv := none
    portSend := none
    extracted := none
    recvStarted := false
    sendStarted := false
    sendResult := none
    recvRunningAtEnd := false
    compareRan := none }

/-- Result of `check_command` (lines 58-86): the resolved path, or the
`sys.exit(1)` failure. -/
inductive CheckResult where
  | found (resolved : String)
  | failed
deriving DecidableEq

/-- Embedding of `check_command` (lines 58-86): first consult
`shutil.which`; when it yields a path, require that path to be a regular
file with execute permission (otherwise fail without falling back); only
when `which` finds nothing, treat the argument as a direct filesystem
path and require it to be a regular file with execute permission. -/
def check_command (env : TestEnv) (cmd_path_str : String) : CheckResult :=
  match env.which cmd_path_str with
  | some resolved =>
    if env.executableFile resolved then CheckResult.found resolved
    else CheckResult.failed
  | none =>
    if env.executableFile cmd_path_str then CheckResult.found cmd_path_str
    else CheckResult.failed

/-- The tool-check block of `main_logic` (lines 127-138): resolve socat
(when needed), then the four collaborator tools, in order; any failure is
the caught `SystemExit`, modelled as `none`. -/
def resolveTools (env : TestEnv) (a : TestArgs) (use_socat : Bool) :
    Option (Option String × String × String × String × String) :=
  match (if use_socat then
      match check_command env "socat" with
      | CheckResult.found p => some (some p)
      | CheckResult.failed => none
    else some none) with
  | none => none
  | some socat_cmd =>
    match check_command env a.oasis_disk_util_exec,
        check_command env a.oasis_send_exec,
        check_command env a.oasis_recv_exec,
        check_command env a.compare_md5_exec with
    | CheckResult.found d, CheckResult.found s, CheckResult.found r,
        CheckResult.found c => some (socat_cmd, d, s, r, c)
    | _, _, _, _ => none

/-- Outcome of the PTY readiness polling loop. -/
inductive PollResult where
  | success (attempts : Nat)
  | timeout (lastA lastB : Bool)
deriving DecidableEq

/-- `max_pty_wait_seconds` (line 179): the poll budget, 15 one-second
attempts. -/
def max_pty_wait_seconds : Nat := 15

/-- Embedding of the PTY wait loop (lines 183-213). Arguments: readiness
observations per endpoint and attempt, remaining budget, current attempt
index, and the forward-only resolved flags (`local_pty_a_path_socat` and
`local_pty_b_path_socat` being non-`None`): an endpoint already resolved
is not re-checked. On a break, `success` reports the number of iterations
executed; on exhaustion, `timeout` reports the final resolved flags. -/
def ptyPollLoop (rA rB : Nat → Bool) : Nat → Nat → Bool → Bool → PollResult
  | 0, _, aR, bR => PollResult.timeout aR bR
  | Nat.succ n, i, aR, bR =>
    if (aR || rA i) && (bR || rB i) then PollResult.success (i + 1)
    else ptyPollLoop rA rB n (i + 1) (aR || rA i) (bR || rB i)

/-- The full poll: budget of `max_pty_wait_seconds` attempts starting with
both endpoints unresolved. -/
def ptyPoll (rA rB : Nat → Bool) : PollResult :=
  ptyPollLoop rA rB max_pty_wait_seconds 0 false false

/-- Disjunction of the readiness observations of one endpoint over the
attempt window starting at `i` of the given length: the forward-only
resolved state after the window. -/
def everReady (r : Nat → Bool) : Nat → Nat → Bool
  | _, 0 => false
  | i, Nat.succ m => r i || everReady r (i + 1) m

/-- Model of Python `str.endswith` used at line 289. -/
def endswith (s suf : String) : Bool :=
  List.isSuffixOf suf.data s.data

/-- Sections 4-6 of `main_logic` (lines 221-311): extraction, the
send/receive block, and the comparison, starting from the trace `base`
accumulated by the earlier sections. Each branch is one `sys.exit` path
of the source. -/
def transferStage (env : TestEnv) (a : TestArgs) (base : RunResult) :
    RunResult :=
  if !env.extractOk then
    -- oasis_disk_util failed: sys.exit(1) (line 228)
    { base with exit := 1 }
  else if env.numExtracted = 0 then
    -- nothing to transfer: sys.exit(0) (line 236)
    { base with extracted := some env.numExtracted, exit := 0 }
  else if env.sendExit ≠ 0 then
    -- sender failed: terminate the receiver when still running, then
    -- sys.exit(1) (lines 262-265); either way it is no longer running
    { base with
      extracted := some env.numExtracted
      recvStarted := true
      sendStarted := true
      sendResult := some env.sendExit
      recvRunningAtEnd := false
      exit := 1 }
  else if env.recvExit ≠ 0 then
    -- receiver (waited on at line 269) failed: sys.exit(1) (line 272)
    { base with
      extracted := some env.numExtracted
      recvStarted := true
      sendStarted := true
      sendResult := some env.sendExit
      recvRunningAtEnd := false
      exit := 1 }
  else if endswith a.compare_md5_exec ".py" && !env.pythonFound then
    -- no python interpreter for compare_md5.py: sys.exit(1) (line 293)
    { base with
      extracted := some env.numExtracted
      recvStarted := true
      sendStarted := true
      sendResult := some env.sendExit
      recvRunningAtEnd := false
      exit := 1 }
  else if env.compareExit ≠ 0 then
    -- comparison tool failed to run: sys.exit(1) (line 307)
    { base with
      extracted := some env.numExtracted
      recvStarted := true
      sendStarted := true
      sendResult := some env.sendExit
      recvRunningAtEnd := false
      compareRan := some env.compareExit
      exit := 1 }
  else
    -- report printed, never parsed: sys.exit(0) (line 311)
    { base with
      extracted := some env.numExtracted
      recvStarted := true
      sendStarted := true
      sendResult := some env.sendExit
      recvRunningAtEnd := false
      compareRan := some env.compareExit
      exit := 0 }

/-- Sections 1-6 of `main_logic` after the port strategy has been fixed
(lines 127-311). `pr`/`ps` are the already-assigned `port_for_recv` and
`port_for_send` globals (the caller-supplied ports, or `none` when socat
will provide them). -/
def mainAfterPorts (env : TestEnv) (a : TestArgs) (use_socat : Bool)
    (pr ps : Option String) : RunResult :=
  match resolveTools env a use_socat with
  | none =>
    -- check_command called sys.exit(1); caught at line 137, main_logic
    -- returns before any directory or loopback provisioning
    { initialResult with
      portRecv := pr
      portSend := ps
      resolverFailed := true }
  | some _ =>
    if !env.diskImageIsFile then
      -- missing disk image: sys.exit(1) (line 143)
      { initialResult with portRecv := pr, portSend := ps, exit := 1 }
    else if use_socat then
      if !env.socatSpawnOk then
        -- Popen raised: sys.exit(1) (line 176)
        { initialResult with
          portRecv := pr
          portSend := ps
          dirsCreated := true
          exit := 1 }
      else
        match ptyPoll env.readyA env.readyB with
        | PollResult.timeout la lb =>
          -- budget exhausted: kill socat, sys.exit(1) (lines 208-213);
          -- the loop printed the per-endpoint resolved state each failed
          -- attempt, last at attempt 15
          { initialResult with
            portRecv := pr
            portSend := ps
            dirsCreated := true
            socatStarted := true
            pollAttempts := max_pty_wait_seconds
            pollDiag := some (la, lb)
            exit := 1 }
        | PollResult.success k =>
          transferStage env a
            { initialResult with
              dirsCreated := true
              socatStarted := true
              pollAttempts := k
              portRecv := some env.resolvedA
              portSend := some env.resolvedB }
    else
      transferStage env a
        { initialResult with
          portRecv := pr
          portSend := ps
          dirsCreated := true }

/-- Embedding of `main_logic` (lines 88-311), starting from the port
strategy of section 0 (lines 104-124). -/
def main_logic (env : TestEnv) (a : TestArgs) : RunResult :=
  match a.com_port_recv_arg, a.com_port_send_arg with
  | some pr, some ps =>
    -- both ports supplied: use them directly, never use socat
    mainAfterPorts env a false (some pr) (some ps)
  | some _, none =>
    -- only one port supplied: sys.exit(1) (line 115)
    { initialResult with exit := 1 }
  | none, some _ =>
    { initialResult with exit := 1 }
  | none, none =>
    if env.is_win32 then
      -- Windows requires explicit ports: sys.exit(1) (line 121)
      { initialResult with exit := 1 }
    else
      mainAfterPorts env a true none none

/-! ### Helper lemmas about the poll loop and the transfer stage -/

theorem ptyPollLoop_success_le (rA rB : Nat → Bool) :
    ∀ (n i : Nat) (aR bR : Bool) (k : Nat),
      ptyPollLoop rA rB n i aR bR = PollResult.success k → k ≤ i + n
  | 0, i, aR, bR, k => by
    intro h
    simp [ptyPollLoop] at h
  | Nat.succ n, i, aR, bR, k => by
    intro h
    unfold ptyPollLoop at h
    by_cases hc : ((aR || rA i) && (bR || rB i)) = true
    · rw [if_pos hc] at h
      cases h
      omega
    · rw [if_neg hc] at h
      have := ptyPollLoop_success_le rA rB n (i + 1) (aR || rA i) (bR || rB i) k h
      omega

theorem ptyPollLoop_timeout_last (rA rB : Nat → Bool) :
    ∀ (n i : Nat) (aR bR la lb : Bool),
      ptyPollLoop rA rB n i aR bR = PollResult.timeout la lb →
      la = (aR || everReady rA i n) ∧ lb = (bR || everReady rB i n)
  | 0, i, aR, bR, la, lb => by
    intro h
    simp only [ptyPollLoop, PollResult.timeout.injEq] at h
    simp [everReady, h.1.symm, h.2.symm]
  | Nat.succ n, i, aR, bR, la, lb => by
    intro h
    unfold ptyPollLoop at h
    by_cases hc : ((aR || rA i) && (bR || rB i)) = true
    · rw [if_pos hc] at h
      cases h
    · rw [if_neg hc] at h
      have := ptyPollLoop_timeout_last rA rB n (i + 1) (aR || rA i) (bR || rB i) la lb h
      constructor
      · rw [this.1, everReady, Bool.or_assoc]
      · rw [this.2, everReady, Bool.or_assoc]

theorem ptyPoll_cases (rA rB : Nat → Bool) :
    (∃ k, ptyPoll rA rB = PollResult.success k ∧ k ≤ max_pty_wait_seconds) ∨
    ptyPoll rA rB = PollResult.timeout
      (everReady rA 0 max_pty_wait_seconds)
      (everReady rB 0 max_pty_wait_seconds) := by
  rcases h : ptyPoll rA rB with ⟨k⟩ | ⟨la, lb⟩
  · left
    refine ⟨k, rfl, ?_⟩
    unfold ptyPoll at h
    have := ptyPollLoop_success_le rA rB max_pty_wait_seconds 0 false false k h
    omega
  · right
    unfold ptyPoll at h
    have := ptyPollLoop_timeout_last rA rB max_pty_wait_seconds 0 false false la lb h
    rw [Bool.false_or, Bool.false_or] at this
    rw [this.1, this.2]

theorem transferStage_resolverFailed (env : TestEnv) (a : TestArgs)
    (b : RunResult) : (transferStage env a b).resolverFailed = b.resolverFailed := by
  unfold transferStage
  split_ifs <;> rfl

theorem transferStage_dirsCreated (env : TestEnv) (a : TestArgs)
    (b : RunResult) : (transferStage env a b).dirsCreated = b.dirsCreated := by
  unfold transferStage
  split_ifs <;> rfl

theorem transferStage_socatStarted (env : TestEnv) (a : TestArgs)
    (b : RunResult) : (transferStage env a b).socatStarted = b.socatStarted := by
  unfold transferStage
  split_ifs <;> rfl

theorem transferStage_pollAttempts (env : TestEnv) (a : TestArgs)
    (b : RunResult) : (transferStage env a b).pollAttempts = b.pollAttempts := by
  unfold transferStage
  split_ifs <;> rfl

theorem transferStage_pollDiag (env : TestEnv) (a : TestArgs)
    (b : RunResult) : (transferStage env a b).pollDiag = b.pollDiag := by
  unfold transferStage
  split_ifs <;> rfl

theorem transferStage_portRecv (env : TestEnv) (a : TestArgs)
    (b : RunResult) : (transferStage env a b).portRecv = b.portRecv := by
  unfold transferStage
  split_ifs <;> rfl

theorem transferStage_portSend (env : TestEnv) (a : TestArgs)
    (b : RunResult) : (transferStage env a b).portSend = b.portSend := by
  unfold transferStage
  split_ifs <;> rfl

theorem transferStage_send_fail (env : TestEnv) (a : TestArgs)
    (b : RunResult) (c : Nat) (hb : b.sendResult = none)
    (h1 : (transferStage env a b).sendResult = some c) (h2 : c ≠ 0) :
    (transferStage env a b).exit = 1 ∧
    (transferStage env a b).recvRunningAtEnd = false := by
  unfold transferStage at h1 ⊢
  split_ifs at h1 ⊢ <;> simp_all

theorem transferStage_zero_extracted (env : TestEnv) (a : TestArgs)
    (b : RunResult) (hb1 : b.extracted = none) (hb2 : b.recvStarted = false)
    (hb3 : b.sendStarted = false)
    (h1 : (transferStage env a b).extracted = some 0) :
    (transferStage env a b).exit = 0 ∧
    (transferStage env a b).recvStarted = false ∧
    (transferStage env a b).sendStarted = false := by
  unfold transferStage at h1 ⊢
  split_ifs at h1 ⊢ <;> simp_all

/-! ### Claims about main_logic -/

/-- Claim C2: in every run in which the sender process exits with a
non-zero status, the receiver process is no longer running when
`main_logic` returns (it is terminated at line 264 when still alive) and
the run fails with exit code 1 (the `TransferError` of the spec,
lines 262-265). -/
theorem c2_sender_failure_terminates_receiver (env : TestEnv) (a : TestArgs)
    (c : Nat) (h1 : (main_logic env a).sendResult = some c) (h2 : c ≠ 0) :
    (main_logic env a).exit = 1 ∧
    (main_logic env a).recvRunningAtEnd = false := by
  revert h1
  unfold main_logic mainAfterPorts
  repeat' split
  all_goals intro h1
  all_goals first
    | exact transferStage_send_fail env a _ c (by simp [initialResult]) h1 h2
    | simp [initialResult] at h1

/-- Claim C3: in every run in which extraction succeeds but counts zero
regular files, the run exits 0 (line 236) without ever starting the
sender or the receiver process. -/
theorem c3_zero_extracted_success_no_transfer (env : TestEnv) (a : TestArgs)
    (h1 : (main_logic env a).extracted = some 0) :
    (main_logic env a).exit = 0 ∧
    (main_logic env a).recvStarted = false ∧
    (main_logic env a).sendStarted = false := by
  revert h1
  unfold main_logic mainAfterPorts
  repeat' split
  all_goals intro h1
  all_goals first
    | exact transferStage_zero_extracted env a _ (by simp [initialResult])
        (by simp [initialResult]) (by simp [initialResult]) h1
    | simp [initialResult] at h1

/-- Claim C7: when the caller supplies two explicit port identifiers,
socat is never started, no readiness-poll attempt is made, and the two
supplied identifiers are the two link endpoints (lines 107-110 and the
skipped section 3). -/
theorem c7_explicit_ports_skip_loopback (env : TestEnv) (a : TestArgs)
    (pr ps : String) (h1 : a.com_port_recv_arg = some pr)
    (h2 : a.com_port_send_arg = some ps) :
    (main_logic env a).socatStarted = false ∧
    (main_logic env a).pollAttempts = 0 ∧
    (main_logic env a).portRecv = some pr ∧
    (main_logic env a).portSend = some ps := by
  unfold main_logic
  simp only [h1, h2]
  unfold mainAfterPorts
  repeat' split
  all_goals simp_all [initialResult, transferStage_socatStarted,
    transferStage_pollAttempts, transferStage_portRecv, transferStage_portSend]

/-- Claim C8: the tool resolver consults `shutil.which` first and commits
to its answer (a found-but-not-executable path fails without falling back
to the direct-path interpretation); only when `which` finds nothing is
the string treated as a direct filesystem path, required to be a regular
file with execute permission; and a resolver failure ends the run before
any directory is created or any loopback process started. -/
theorem c8_resolution_order_and_early_abort (env : TestEnv) (a : TestArgs)
    (s1 s2 r : String) :
    (env.which s1 = some r →
      check_command env s1 =
        (if env.executableFile r then CheckResult.found r
          else CheckResult.failed)) ∧
    (env.which s2 = none →
      check_command env s2 =
        (if env.executableFile s2 then CheckResult.found s2
          else CheckResult.failed)) ∧
    ((main_logic env a).resolverFailed = true →
      (main_logic env a).dirsCreated = false ∧
      (main_logic env a).socatStarted = false ∧
      (main_logic env a).recvStarted = false ∧
      (main_logic env a).sendStarted = false) := by
  refine ⟨fun hw => ?_, fun hw => ?_, fun hrf => ?_⟩
  · unfold check_command
    rw [hw]
  · unfold check_command
    rw [hw]
  · revert hrf
    unfold main_logic mainAfterPorts
    repeat' split
    all_goals intro hrf
    all_goals simp_all [initialResult, transferStage_resolverFailed,
      transferStage_dirsCreated, transferStage_socatStarted]

/-- Claim C4: readiness polling performs at most `max_pty_wait_seconds`
(15) attempts in every run, and when the budget is exhausted before both
endpoints resolve the run fails with exit code 1 (the `ReadinessTimeout`
of the spec) while the diagnostic carries the last-observed per-endpoint
resolved state, namely the forward-only accumulation of the readiness
observations over the 15-attempt window. -/
theorem c4_poll_bounded_timeout_diag (env : TestEnv) (a : TestArgs) :
    (main_logic env a).pollAttempts ≤ max_pty_wait_seconds ∧
    (∀ la lb, (main_logic env a).pollDiag = some (la, lb) →
      (main_logic env a).exit = 1 ∧
      la = everReady env.readyA 0 max_pty_wait_seconds ∧
      lb = everReady env.readyB 0 max_pty_wait_seconds) := by
  unfold main_logic mainAfterPorts
  rcases ptyPoll_cases env.readyA env.readyB with ⟨k, hk, hk15⟩ | ht
  · simp only [hk]
    repeat' split
    all_goals simp_all [initialResult, transferStage_pollAttempts,
      transferStage_pollDiag]
  · simp only [ht]
    repeat' split
    all_goals simp_all [initialResult, transferStage_pollAttempts,
      transferStage_pollDiag]

/-! ### Concrete runs used as witnesses -/

/-- The harness invocation with two explicit COM ports supplied. -/
def argsBoth : TestArgs :=
  { oasis_disk_util_exec := "oasis_disk_util"
    oasis_send_exec := "oasis_send"
    oasis_recv_exec := "oasis_recv"
    disk_image := "disk.img"
    compare_md5_exec := "compare_md5.py"
    com_port_recv_arg := some "PORT1"
    com_port_send_arg := some "PORT2" }

/-- The harness invocation with no COM ports (socat loopback mode). -/
def argsNoPorts : TestArgs :=
  { argsBoth with
    com_port_recv_arg := none
    com_port_send_arg := none }

/-- An environment in which every external step succeeds. -/
def envHappy : TestEnv :=
  { is_win32 := false
    which := fun s => some s
    executableFile := fun _ => true
    diskImageIsFile := true
    socatSpawnOk := true
    readyA := fun _ => true
    readyB := fun _ => true
    resolvedA := "/dev/pts/3"
    resolvedB := "/dev/pts/4"
    extractOk := true
    numExtracted := 2
    sendExit := 0
    recvExit := 0
    pythonFound := true
    compareExit := 0
    compareMismatched := 0
    compareOnly1 := 0
    compareOnly2 := 0 }

/-- A run in which the transfer corrupted one file: the comparison tool
runs fine (exit 0) but its report lists one mismatched file. -/
def envC1 : TestEnv := { envHappy with compareMismatched := 1 }

/-- A source directory and a reception directory both holding `F1`, with
different content, for the C1 failing input. -/
def fsSrcW : String → FileRead := fun _ => FileRead.ok [1]

/-- The reception side of the C1 failing input. -/
def fsDstW : String → FileRead := fun _ => FileRead.ok [1, 2]

/-- Claim C1 (code-bug exhibit): at a run in which the comparison tool
executes successfully (exit status 0) while its report contains one
mismatched file, the harness exits 0, not 1. The embedded
`compare_directories` on the failing input indeed classifies `F1` as
mismatched while the tool itself exits 0 (`compare_directories` has no
failure exit once both directories validate), and `main_logic` captures
the report (line 299) yet never parses it, printing the success banner
and calling `sys.exit(0)` (line 311). The claim, and the specification
it quotes, require exit code 1 here. -/
theorem c1_harness_ignores_mismatch_report :
    (compare_directories md5hexW fsSrcW fsDstW ["F1"] ["F1"]).mismatched_files
      = ["F1"] ∧
    envC1.compareMismatched = 1 ∧
    (main_logic envC1 argsBoth).compareRan = some 0 ∧
    (main_logic envC1 argsBoth).exit = 0 := by
  decide

/-- A run in which the sender exits with status 2. -/
def envSendFail : TestEnv := { envHappy with sendExit := 2 }

theorem c2_witness :
    (main_logic envSendFail argsBoth).exit = 1 ∧
    (main_logic envSendFail argsBoth).recvRunningAtEnd = false :=
  c2_sender_failure_terminates_receiver envSendFail argsBoth 2 (by decide)
    (by decide)

/-- A run in which extraction succeeds but yields zero files. -/
def envZeroFiles : TestEnv := { envHappy with numExtracted := 0 }

theorem c3_witness :
    (main_logic envZeroFiles argsBoth).exit = 0 ∧
    (main_logic envZeroFiles argsBoth).recvStarted = false ∧
    (main_logic envZeroFiles argsBoth).sendStarted = false :=
  c3_zero_extracted_success_no_transfer envZeroFiles argsBoth (by decide)

/-- A socat run in which the PTY endpoints never become ready. -/
def envNeverReady : TestEnv :=
  { envHappy with
    readyA := fun _ => false
    readyB := fun _ => false }

theorem c4_witness :
    (main_logic envNeverReady argsNoPorts).pollAttempts ≤ max_pty_wait_seconds ∧
    (main_logic envNeverReady argsNoPorts).exit = 1 :=
  ⟨(c4_poll_bounded_timeout_diag envNeverReady argsNoPorts).1,
   ((c4_poll_bounded_timeout_diag envNeverReady argsNoPorts).2 false false
     (by decide)).1⟩

theorem c7_witness :
    (main_logic envHappy argsBoth).socatStarted = false ∧
    (main_logic envHappy argsBoth).pollAttempts = 0 ∧
    (main_logic envHappy argsBoth).portRecv = some "PORT1" ∧
    (main_logic envHappy argsBoth).portSend = some "PORT2" :=
  c7_explicit_ports_skip_loopback envHappy argsBoth "PORT1" "PORT2" rfl rfl

/-- An environment in which `which` knows exactly one executable, so the
collaborator tools fail to resolve. -/
def envResolver : TestEnv :=
  { envHappy with
    which := fun s => if s = "findme" then some "/bin/findme" else none
    executableFile := fun p => p == "/bin/findme" }

theorem c8_witness :
    check_command envResolver "findme" =
      (if envResolver.executableFile "/bin/findme" then
        CheckResult.found "/bin/findme" else CheckResult.failed) ∧
    check_command envResolver "oasis_disk_util" =
      (if envResolver.executableFile "oasis_disk_util" then
        CheckResult.found "oasis_disk_util" else CheckResult.failed) ∧
    (main_logic envResolver argsBoth).dirsCreated = false ∧
    (main_logic envResolver argsBoth).socatStarted = false :=
  ⟨(c8_resolution_order_and_early_abort envResolver argsBoth "findme"
      "oasis_disk_util" "/bin/findme").1 (by decide),
   (c8_resolution_order_and_early_abort envResolver argsBoth "findme"
      "oasis_disk_util" "/bin/findme").2.1 (by decide),
   ((c8_resolution_order_and_early_abort envResolver argsBoth "findme"
      "oasis_disk_util" "/bin/findme").2.2 (by decide)).1,
   ((c8_resolution_order_and_early_abort envResolver argsBoth "findme"
      "oasis_disk_util" "/bin/findme").2.2 (by decide)).2.1⟩

/-! ### Cleanup and external interruption (lines 35-55 and 314-366) -/

/-- The observable state the `cleanup` function (lines 35-55) reads and
writes: the socat process handle tracked by the `socat_process` global
(`socat_tracked` models it being non-`None`, `socat_running` whether the
underlying OS process is alive), the `use_socat_globally` flag, the
receiver and sender OS processes spawned by `main_logic` (locals of
`main_logic`, invisible to `cleanup`), and the session root directory
(`dir_set` models `temp_base_dir_path` being non-`None`, `dir_exists`
the directory existing on disk). -/
structure SessionState where
  use_socat : Bool
  socat_tracked : Bool
  socat_running : Bool
  recv_running : Bool
  send_running : Bool
  dir_set : Bool
  dir_exists : Bool
deriving DecidableEq

/-- Embedding of `cleanup` (lines 35-55): when socat was used and is
still tracked, terminate it (graceful terminate, forced kill after the
grace period; either way the process ends) and drop the handle
(`socat_process = None`, line 48); then, when the session root path is
set and the directory exists, remove it recursively
(`shutil.rmtree(..., ignore_errors=True)`, line 53). The receiver and
sender processes are local to `main_logic` and are not touched. Removal
is modelled as succeeding; `ignore_errors=True` means no step raises. -/
def cleanup (s : SessionState) : SessionState :=
  let s1 :=
    if s.use_socat && s.socat_tracked then
      { s with socat_running := false, socat_tracked := false }
    else s
  if s1.dir_set && s1.dir_exists then { s1 with dir_exists := false } else s1

/-- The order of the best-effort steps `cleanup` performs on a given
state: socat termination (when taken) strictly precedes directory
removal (when taken). -/
inductive CleanupEvent where
  | termLoopback
  | removeDir
deriving DecidableEq

/-- The steps `cleanup` performs, in source order. -/
def cleanupTrace (s : SessionState) : List CleanupEvent :=
  (if s.use_socat && s.socat_tracked then [CleanupEvent.termLoopback] else []) ++
    (if s.dir_set && s.dir_exists then [CleanupEvent.removeDir] else [])

/-- Embedding of the `__main__` interruption path (lines 348-366): a
`KeyboardInterrupt` at any point of `main_logic` propagates (it is not an
`Exception`, so the handler at line 275 does not catch it) to the
`except KeyboardInterrupt` block, which calls `cleanup()` once; the
`finally` block then calls `cleanup()` again only if
`temp_base_dir_path` is set and the directory still exists. -/
def interruptRun (s : SessionState) : SessionState :=
  let s1 := cleanup s
  if s1.dir_set && s1.dir_exists then cleanup s1 else s1

/-- How many times the interruption path invokes `cleanup`. -/
def interruptCleanupCalls (s : SessionState) : Nat :=
  let s1 := cleanup s
  1 + (if s1.dir_set && s1.dir_exists then 1 else 0)

/-- The state of an interrupted socat run: socat started and tracked,
the receiver started and still running, the session directory present.
This is the state of a run interrupted while waiting on the receiver. -/
def interruptedState : SessionState :=
  { use_socat := true
    socat_tracked := true
    socat_running := true
    recv_running := true
    send_running := false
    dir_set := true
    dir_exists := true }

/-- Claim C5 counterexample: interrupting a run whose receiver process is
still running removes the session root directory and terminates socat,
but leaves the receiver running — `cleanup` (lines 35-55) never touches
the receiver or sender processes, so a started receiver is not
terminated and outlives its session, contrary to the claim that cleanup
attempts to terminate every process already started and that no managed
process outlives its session. -/
theorem c5_counterexample_receiver_survives :
    (interruptRun interruptedState).recv_running = true ∧
    (interruptRun interruptedState).dir_exists = false ∧
    (interruptRun interruptedState).socat_running = false := by
  decide

/-- Claim C5 as amended: on an external interruption the Cleanup Manager
is reached exactly once (the `finally` fallback does not fire again
because the first call already removed the directory); it attempts to
terminate the loopback provider — the only process it manages — before
the session root directory is removed; the receiver and sender processes
are left untouched and, when still running, outlive the session. -/
theorem c5_interrupt_cleanup_once (s : SessionState) :
    interruptCleanupCalls s = 1 ∧
    (interruptRun s).recv_running = s.recv_running ∧
    (interruptRun s).send_running = s.send_running ∧
    ((s.use_socat && s.socat_tracked) = true →
      (interruptRun s).socat_running = false) ∧
    (s.dir_set = true → (interruptRun s).dir_exists = false) ∧
    ((s.use_socat && s.socat_tracked) = true →
      (s.dir_set && s.dir_exists) = true →
      cleanupTrace s = [CleanupEvent.termLoopback, CleanupEvent.removeDir]) := by
  rcases s with ⟨u, st, sr, rr, sd, ds, de⟩
  simp only [interruptCleanupCalls, interruptRun, cleanup, cleanupTrace]
  rcases u <;> rcases st <;> rcases ds <;> rcases de <;> simp

theorem c5_witness :
    interruptCleanupCalls interruptedState = 1 ∧
    (interruptRun interruptedState).socat_running = false ∧
    (interruptRun interruptedState).dir_exists = false ∧
    cleanupTrace interruptedState =
      [CleanupEvent.termLoopback, CleanupEvent.removeDir] :=
  ⟨(c5_interrupt_cleanup_once interruptedState).1,
   (c5_interrupt_cleanup_once interruptedState).2.2.2.1 (by decide),
   (c5_interrupt_cleanup_once interruptedState).2.2.2.2.1 (by decide),
   (c5_interrupt_cleanup_once interruptedState).2.2.2.2.2 (by decide) (by decide)⟩

/-- Claim C6: `cleanup` is idempotent — a second invocation in sequence
is a no-op on the observable state (the first invocation drops the socat
handle and removes the directory, so both guarded steps are skipped the
second time), and being a total function it raises no error. -/
theorem c6_cleanup_idempotent (s : SessionState) :
    cleanup (cleanup s) = cleanup s := by
  rcases s with ⟨u, st, sr, rr, sd, ds, de⟩
  simp only [cleanup]
  rcases u <;> rcases st <;> rcases ds <;> rcases de <;> simp
